import Mathlib

/-!
Verification of the request-validation / rate-limiting / response-formatting
core of the `neng-ai-chat-bot` REST gateway, shallowly embedded in Lean.

Conventions of the embedding:
* JavaScript runtime values appearing in request bodies and envelopes are
  modelled by `JVal`; JS truthiness is `truthy`.
* Machine time (`Date.now()`, ISO timestamps) is threaded explicitly as a
  `Nat` parameter `now`; ISO-8601 timestamp strings are represented by the
  numeric instant they are generated from.
* An Express response (`res.status(c).json(o)`) is an `HttpResponse` value:
  the wire status code together with the JSON envelope.
* Fallible code (`throw` / `try` / `catch`) is modelled with `Except` or by
  the handler returning the response the `catch` block produces.
-/

/-- A JavaScript value as it can occur in a JSON request body or response
envelope: `null`, booleans, numbers, strings, arrays and plain objects. -/
inductive JVal where
  | vnull
  | vbool (b : Bool)
  | vnum (n : Int)
  | vstr (s : String)
  | varr (xs : List JVal)
  | vobj (fields : List (String × JVal))

/-- JavaScript truthiness of a `JVal`: `null`, `false`, `0` and `""` are
falsy; every other value (in particular every object and array) is truthy. -/
def truthy : JVal → Bool
  | JVal.vnull => false
  | JVal.vbool b => b
  | JVal.vnum n => n != 0
  | JVal.vstr s => s != ""
  | JVal.varr _ => true
  | JVal.vobj _ => true

/-- The whitespace characters stripped by JavaScript `String.prototype.trim`
(ASCII whitespace, no-break space and the BOM; the exotic Unicode space
separators never occur in the inputs considered here). -/
def jsWhitespace (c : Char) : Bool :=
  c = ' ' || c = '\t' || c = '\n' || c = '\r' || c = '\x0b' || c = '\x0c' ||
  c = '\u00A0' || c = '\uFEFF'

/-- JavaScript `s.trim()`: remove leading and trailing whitespace. -/
def jsTrim (s : String) : String :=
  String.mk (((s.data.dropWhile jsWhitespace).reverse.dropWhile jsWhitespace).reverse)

/-- JavaScript `x || d` on an optional string (`undefined` and `""` are
falsy and select the default). -/
def jsOrStr : Option String → String → String
  | none, d => d
  | some s, d => if s = "" then d else s

/-- JavaScript `x || d` on an optional number. -/
def jsOrNum : Option Int → Int → Int
  | none, d => d
  | some n, d => if n = 0 then d else n

/-- Property access on a JS object modelled as an association list: the value
of the first binding of the key, as `Object.keys` order determines it. -/
def lookupKey (k : String) : List (String × JVal) → Option JVal
  | [] => none
  | (k', v) :: rest => if k = k' then some v else lookupKey k rest

/-- The JSON response envelope built by `utils/responseHandler.js`.  A field
that the builder leaves out of the object is `none`. -/
structure Envelope where
  status : Bool
  code : Nat
  message : String
  data : Option JVal
  meta : Option JVal
  errors : Option JVal
  timestamp : Nat

/-- What `res.status(statusCode).json(response)` sends: the HTTP status code
on the wire together with the envelope. -/
structure HttpResponse where
  httpStatus : Nat
  body : Envelope

/-- A thrown JavaScript `Error`: its `message` and its `stack`. -/
structure JsError where
  message : String
  stack : String

/-- `sendSuccessResponse(res, data, message = 'Success', meta = null,
statusCode = 200)` from `utils/responseHandler.js`: a `status: true` envelope
carrying `data` always and `meta` only when the `meta` argument is truthy
(`if (meta) response.meta = meta`). -/
def sendSuccessResponse (now : Nat) (data : JVal) (message : String)
    (meta : JVal) (statusCode : Nat) : HttpResponse :=
  { httpStatus := statusCode
    body :=
      { status := true
        code := statusCode
        message := message
        data := some data
        meta := if truthy meta then some meta else none
        errors := none
        timestamp := now } }

/-- `sendErrorResponse(res, message, statusCode = 500, errors = null)` from
`utils/responseHandler.js`: a `status: false` envelope carrying `errors` only
when the `errors` argument is truthy (`if (errors) response.errors = errors`). -/
def sendErrorResponse (now : Nat) (message : String) (statusCode : Nat)
    (errors : JVal) : HttpResponse :=
  { httpStatus := statusCode
    body :=
      { status := false
        code := statusCode
        message := message
        data := none
        meta := none
        errors := if truthy errors then some errors else none
        timestamp := now } }

/-- `sendValidationError(res, message, validationErrors = null)` from
`utils/responseHandler.js`: delegates to `sendErrorResponse` with status code
400; the third argument becomes the `errors` payload, not a status code. -/
def sendValidationError (now : Nat) (message : String)
    (validationErrors : JVal) : HttpResponse :=
  sendErrorResponse now message 400 validationErrors

/-- `sendInternalServerError(res, error, customMessage = 'Internal server
error')` from `utils/responseHandler.js`.  `mode` is `process.env.NODE_ENV`;
the raw `error.message`/`error.stack` are exposed only when it equals
`'development'`, otherwise the fixed string is used.  The `console.error`
side effect is not part of the response and is not modelled. -/
def sendInternalServerError (now : Nat) (mode : String) (error : JsError)
    (customMessage : String) : HttpResponse :=
  let errorDetails : JVal :=
    if mode = "development" then
      JVal.vobj [("message", JVal.vstr error.message), ("stack", JVal.vstr error.stack)]
    else
      JVal.vstr "Internal server error occurred"
  sendErrorResponse now customMessage 500 errorDetails

/-- One entry of the `FILE_TYPES` registry in `utils/fileValidation.js`. -/
structure FileTypeConfig where
  name : String
  maxSize : Nat
  allowedMimeTypes : List String
  fieldName : String
  errorMessage : String

/-- `FILE_TYPES.IMAGE` from `utils/fileValidation.js`. -/
def IMAGE_CONFIG : FileTypeConfig :=
  { name := "image"
    maxSize := 10 * 1024 * 1024
    allowedMimeTypes :=
      ["image/jpeg", "image/jpg", "image/png", "image/gif", "image/webp",
       "image/bmp", "image/svg+xml"]
    fieldName := "file"
    errorMessage := "Only JPEG, PNG, GIF, WebP, BMP, and SVG image files are allowed" }

/-- `FILE_TYPES.DOCUMENT` from `utils/fileValidation.js`. -/
def DOCUMENT_CONFIG : FileTypeConfig :=
  { name := "document"
    maxSize := 50 * 1024 * 1024
    allowedMimeTypes :=
      ["application/pdf", "application/msword",
       "application/vnd.openxmlformats-officedocument.wordprocessingml.document",
       "text/plain", "text/csv", "application/vnd.ms-excel",
       "application/vnd.openxmlformats-officedocument.spreadsheetml.sheet",
       "application/vnd.openxmlformats-officedocument.presentationml.presentation"]
    fieldName := "file"
    errorMessage := "Only PDF, Word, Excel, PowerPoint, Text, and CSV files are allowed" }

/-- `FILE_TYPES.AUDIO` from `utils/fileValidation.js`. -/
def AUDIO_CONFIG : FileTypeConfig :=
  { name := "audio"
    maxSize := 100 * 1024 * 1024
    allowedMimeTypes :=
      ["audio/mpeg", "audio/mp3", "audio/wav", "audio/ogg", "audio/aac",
       "audio/flac", "audio/webm"]
    fieldName := "file"
    errorMessage := "Only MP3, WAV, OGG, AAC, FLAC, and WebM audio files are allowed" }

/-- `FILE_TYPES.VIDEO` from `utils/fileValidation.js`. -/
def VIDEO_CONFIG : FileTypeConfig :=
  { name := "video"
    maxSize := 200 * 1024 * 1024
    allowedMimeTypes :=
      ["video/mp4", "video/avi", "video/mov", "video/wmv", "video/flv",
       "video/webm", "video/mkv"]
    fieldName := "file"
    errorMessage := "Only MP4, AVI, MOV, WMV, FLV, WebM, and MKV video files are allowed" }

/-- The `FILE_TYPES` object: keys in declaration order, as `Object.entries`
enumerates them. -/
def FILE_TYPES : List (String × FileTypeConfig) :=
  [("IMAGE", IMAGE_CONFIG), ("DOCUMENT", DOCUMENT_CONFIG),
   ("AUDIO", AUDIO_CONFIG), ("VIDEO", VIDEO_CONFIG)]

/-- ASCII upper-casing of a string (`typeName.toUpperCase()`); the category
names in play are ASCII. -/
def jsToUpper (s : String) : String :=
  String.mk (s.data.map Char.toUpper)

/-- Key lookup in the `FILE_TYPES` object (`FILE_TYPES[upperTypeName]`). -/
def fileTypesIndex : String → Option FileTypeConfig
  | "IMAGE" => some IMAGE_CONFIG
  | "DOCUMENT" => some DOCUMENT_CONFIG
  | "AUDIO" => some AUDIO_CONFIG
  | "VIDEO" => some VIDEO_CONFIG
  | _ => none

/-- `getFileTypeConfig(typeName)` from `utils/fileValidation.js`: `null` when
`typeName` is missing/falsy or not a string, otherwise the registry entry at
the upper-cased name (`FILE_TYPES[upperTypeName] || null`).  The argument is
an `Option` so that the argument-less call `getFileTypeConfig()` in the
controller (`typeName = undefined`) is representable as `none`. -/
def getFileTypeConfig : Option String → Option FileTypeConfig
  | none => none
  | some s => if s = "" then none else fileTypesIndex (jsToUpper s)

/-- A `multer` uploaded-file object as the validators see it.  A field the
object does not carry is `none`; `size` is `none` when `file.size` is not a
number. -/
structure UploadedFile where
  originalname : Option String
  mimetype : Option String
  size : Option Int
  buffer : Option (List Nat)

/-- `isValidFileType(file, fileType)` from `utils/fileValidation.js`: false
when the file is absent or has no (or an empty, hence falsy) declared MIME
type or the category is unknown; otherwise declared-MIME membership in the
category's allow-list. -/
def isValidFileType (file : Option UploadedFile) (fileType : String) : Bool :=
  match file with
  | none => false
  | some f =>
    match f.mimetype with
    | none => false
    | some mt =>
      if mt = "" then false
      else
        match getFileTypeConfig (some fileType) with
        | none => false
        | some config => config.allowedMimeTypes.contains mt

/-- `isValidFileSize(file, maxSize)` from `utils/fileValidation.js`: false
when the file is absent or `file.size` is not a number; otherwise
`file.size <= maxSize` (inclusive boundary). -/
def isValidFileSize (file : Option UploadedFile) (maxSize : Nat) : Bool :=
  match file with
  | none => false
  | some f =>
    match f.size with
    | none => false
    | some n => n ≤ (maxSize : Int)

/-- `Math.round(num / den)` for positive integers `num`, `den`: JavaScript
rounds half toward positive infinity, i.e. `floor(num / den + 1 / 2)`.  The
divisions in the source (`maxSize / (1024 * 1024)`) are exact in binary
floating point at the registry's magnitudes, so the rational computation
coincides with the float one. -/
def mathRoundDiv (num den : Nat) : Nat :=
  (2 * num + den) / (2 * den)

/-- The `{isValid, error}` value returned by `validateFile`. -/
structure ValidationResult where
  isValid : Bool
  error : Option String

/-- `validateFile(file, fileType)` from `utils/fileValidation.js`: unknown
category, then missing file, then MIME check, then size check, in that
order; never throws. -/
def validateFile (file : Option UploadedFile) (fileType : String) : ValidationResult :=
  match getFileTypeConfig (some fileType) with
  | none =>
    { isValid := false
      error := some ("Unknown file type: " ++ fileType) }
  | some config =>
    match file with
    | none =>
      { isValid := false, error := some (config.name ++ " file is required") }
    | some f =>
      if !(isValidFileType (some f) fileType) then
        { isValid := false, error := some config.errorMessage }
      else if !(isValidFileSize (some f) config.maxSize) then
        { isValid := false
          error := some ("File size exceeds " ++
            toString (mathRoundDiv config.maxSize (1024 * 1024)) ++ "MB limit") }
      else
        { isValid := true, error := none }

/-- The RFC 4648 base64 alphabet, as `Buffer.prototype.toString('base64')`
uses it. -/
def base64Table : List Char :=
  "ABCDEFGHIJKLMNOPQRSTUVWXYZabcdefghijklmnopqrstuvwxyz0123456789+/".data

/-- The base64 digit for a 6-bit value. -/
def base64Char (n : Nat) : Char :=
  base64Table.getD n '='

/-- Base64 encoding of a byte sequence with `=` padding
(`buffer.toString('base64')`). -/
def base64Encode : List Nat → List Char
  | [] => []
  | [b1] =>
    [base64Char (b1 / 4), base64Char (b1 % 4 * 16), '=', '=']
  | [b1, b2] =>
    [base64Char (b1 / 4), base64Char (b1 % 4 * 16 + b2 / 16),
     base64Char (b2 % 16 * 4), '=']
  | b1 :: b2 :: b3 :: rest =>
    base64Char (b1 / 4) :: base64Char (b1 % 4 * 16 + b2 / 16) ::
    base64Char (b2 % 16 * 4 + b3 / 64) :: base64Char (b3 % 64) ::
    base64Encode rest

/-- The `{mimeType, data}` payload handed to the upstream client. -/
structure FileData where
  mimeType : String
  data : String

/-- `prepareFileForAPI(file)` from `utils/fileValidation.js`: throws
`'Invalid file object - missing buffer or mimetype'` when the file, its
buffer or its MIME type is absent (or the MIME type is the empty, falsy
string); otherwise the MIME type paired with the base64-encoded buffer. -/
def prepareFileForAPI (file : Option UploadedFile) : Except String FileData :=
  match file with
  | none => Except.error "Invalid file object - missing buffer or mimetype"
  | some f =>
    match f.buffer, f.mimetype with
    | some buf, some mt =>
      if mt = "" then Except.error "Invalid file object - missing buffer or mimetype"
      else Except.ok { mimeType := mt, data := String.mk (base64Encode buf) }
    | _, _ => Except.error "Invalid file object - missing buffer or mimetype"

/-- `formatFileMetadata(file)` from `utils/fileValidation.js`: `null` for a
missing file, otherwise the metadata object.  The `sizeFormatted` field is
computed in the source with floating-point logarithms (`formatFileSize`) and
is outside this embedding; no claim mentions it.  `uploadedAt` is the
ISO-8601 instant of the call, represented numerically. -/
def formatFileMetadata (now : Nat) (file : Option UploadedFile) : JVal :=
  match file with
  | none => JVal.vnull
  | some f =>
    JVal.vobj
      [("originalName", JVal.vstr (jsOrStr f.originalname "unknown")),
       ("mimeType", JVal.vstr (jsOrStr f.mimetype "unknown")),
       ("size", JVal.vnum (jsOrNum f.size 0)),
       ("uploadedAt", JVal.vnum now)]

/-- Outcome of the `validatePrompt` middleware: either the validation-error
response it sends, or `next()` after writing the trimmed prompt back into
`req.body.prompt`. -/
inductive PromptOutcome where
  | rejected (resp : HttpResponse)
  | accepted (newPrompt : String)

/-- Whether the middleware called `next()`. -/
def PromptOutcome.isAccepted : PromptOutcome → Bool
  | PromptOutcome.rejected _ => false
  | PromptOutcome.accepted _ => true

/-- `validatePrompt(req, res, next)` from `middleware/validation.js`, applied
to the value of `req.body.prompt` (`none` = the field is absent).  Checks in
source order: falsy prompt, non-string prompt, blank after trim, raw length
over 10,000; on success the trimmed prompt replaces the original. -/
def validatePrompt (now : Nat) (prompt? : Option JVal) : PromptOutcome :=
  match prompt? with
  | none =>
    PromptOutcome.rejected
      (sendValidationError now "Prompt is required in the request body" JVal.vnull)
  | some v =>
    if truthy v = false then
      PromptOutcome.rejected
        (sendValidationError now "Prompt is required in the request body" JVal.vnull)
    else
      match v with
      | JVal.vstr s =>
        if (jsTrim s).length = 0 then
          PromptOutcome.rejected
            (sendValidationError now "Prompt cannot be empty" JVal.vnull)
        else if s.length > 10000 then
          PromptOutcome.rejected
            (sendValidationError now "Prompt is too long (maximum 10,000 characters)" JVal.vnull)
        else
          PromptOutcome.accepted (jsTrim s)
      | _ =>
        PromptOutcome.rejected
          (sendValidationError now "Prompt must be a string" JVal.vnull)

/-- The keys `sanitizeRequestBody` deletes from the body. -/
def dangerousKeys : List String := ["__proto__", "constructor", "prototype"]

/-- The per-field trimming pass of `sanitizeRequestBody`: string values are
trimmed, every other value passes through unchanged. -/
def trimIfString : JVal → JVal
  | JVal.vstr s => JVal.vstr (jsTrim s)
  | v => v

/-- `sanitizeRequestBody(req, res, next)` from `middleware/validation.js`,
acting on a non-null `req.body` modelled as its own enumerable properties in
order: first `delete` each dangerous key, then trim every string-valued
field. -/
def sanitizeRequestBody (body : List (String × JVal)) : List (String × JVal) :=
  (body.filter (fun kv => !(dangerousKeys.contains kv.1))).map
    (fun kv => (kv.1, trimIfString kv.2))

/-- A `RateWindowEntry`: the per-client `{count, resetTime}` record stored in
the limiter's map. -/
structure RateEntry where
  count : Nat
  resetTime : Nat
deriving DecidableEq

/-- The limiter's `requests` map, keyed by client identity. -/
abbrev RateState := List (String × RateEntry)

/-- `requests.get(clientId)` / `requests.has(clientId)`. -/
def lookupEntry : RateState → String → Option RateEntry
  | [], _ => none
  | (k', e) :: rest, k => if k = k' then some e else lookupEntry rest k

/-- `requests.set(clientId, entry)`: overwrite the binding if present,
otherwise append it. -/
def setEntry : RateState → String → RateEntry → RateState
  | [], k, e => [(k, e)]
  | (k', e') :: rest, k, e =>
    if k = k' then (k, e) :: rest else (k', e') :: setEntry rest k e

/-- `req.ip || req.connection.remoteAddress`: the client key, falling back to
the connection's remote address when `req.ip` is absent or empty (falsy). -/
def resolveClientId (ip : Option String) (remoteAddress : String) : String :=
  jsOrStr ip remoteAddress

/-- What one invocation of the limiter middleware does: call `next()` or send
the rate-limit response. -/
inductive RateOutcome where
  | allowed
  | limited (resp : HttpResponse)

/-- Whether the middleware called `next()`. -/
def RateOutcome.isAllowed : RateOutcome → Bool
  | RateOutcome.allowed => true
  | RateOutcome.limited _ => false

/-- One request through the middleware returned by
`createRateLimiter(maxRequests, timeWindow)` in `middleware/validation.js`
(source defaults: 100 requests, 15·60·1000 ms): create the entry `{count: 1,
resetTime: now + timeWindow}` on a missing or expired (`now > resetTime`)
entry and allow; reject via `sendValidationError(res, 'Too many requests.
Please try again later.', 429)` when `count >= maxRequests`; otherwise
increment the count and allow. -/
def rateLimiterStep (maxRequests timeWindow : Nat) (st : RateState)
    (clientId : String) (now : Nat) : RateState × RateOutcome :=
  match lookupEntry st clientId with
  | none =>
    (setEntry st clientId { count := 1, resetTime := now + timeWindow },
     RateOutcome.allowed)
  | some clientData =>
    if clientData.resetTime < now then
      (setEntry st clientId { count := 1, resetTime := now + timeWindow },
       RateOutcome.allowed)
    else if maxRequests ≤ clientData.count then
      (st,
       RateOutcome.limited
         (sendValidationError now "Too many requests. Please try again later."
           (JVal.vnum 429)))
    else
      (setEntry st clientId
        { count := clientData.count + 1, resetTime := clientData.resetTime },
       RateOutcome.allowed)

/-- A sequence of requests from one client through the limiter: the final map
and the per-request outcomes in order. -/
def rateLimiterRun (maxRequests timeWindow : Nat) (clientId : String) :
    List Nat → RateState → RateState × List RateOutcome
  | [], st => (st, [])
  | now :: rest, st =>
    let sr := rateLimiterStep maxRequests timeWindow st clientId now
    let rr := rateLimiterRun maxRequests timeWindow clientId rest sr.1
    (rr.1, sr.2 :: rr.2)

/-- Result of one upstream (Gemini) call: the generated text, or the thrown
error's message. -/
inductive UpstreamResult where
  | ok (text : String)
  | err (message : String)

/-- The guard at the top of `handleFileRequest` (and `handleTextRequest`):
`if (!prompt || typeof prompt !== 'string' || prompt.trim() === '') throw new
Error('Valid prompt is required')`.  Returns the prompt string when the guard
passes. -/
def handlerPromptGuard : Option JVal → Option String
  | some (JVal.vstr s) =>
    if s = "" then none
    else if jsTrim s = "" then none
    else some s
  | _ => none

/-- What one call of the file-flow controller produced: the response sent,
the encoded payload if `prepareFileForAPI` was reached and succeeded, and
the upstream invocation (trimmed prompt and payload) if one happened. -/
structure HandlerResult where
  response : HttpResponse
  encoded : Option FileData
  upstreamCalled : Option (String × FileData)

/-- `BaseController.handleFileRequest(req, res, endpoint, fileType)` from
`modules/genAI/controller.js`: prompt guard (whose thrown error the `catch`
turns into a 500), `validateFile` with an early validation-error return,
`prepareFileForAPI` (throws propagate to the `catch`), the upstream call via
`callGeminiAPI` (which rethrows with a `Gemini API Error: ` prefix), then the
success envelope with `formatFileMetadata` as `meta`.  `mode` is
`process.env.NODE_ENV`; `gemini` is the upstream collaborator; logging and
timing are observational and not modelled; thrown errors' stack text is an
environment artifact modelled as the empty string. -/
def handleFileRequest (mode : String) (now : Nat)
    (gemini : String → FileData → UpstreamResult)
    (prompt? : Option JVal) (file : Option UploadedFile)
    (fileType : String) : HandlerResult :=
  match handlerPromptGuard prompt? with
  | none =>
    { response :=
        sendInternalServerError now mode
          { message := "Valid prompt is required", stack := "" }
          ("Failed to generate content from " ++ fileType)
      encoded := none
      upstreamCalled := none }
  | some prompt =>
    let validation := validateFile file fileType
    if validation.isValid = false then
      { response :=
          sendValidationError now
            (match validation.error with | some e => e | none => "") JVal.vnull
        encoded := none
        upstreamCalled := none }
    else
      match prepareFileForAPI file with
      | Except.error m =>
        { response :=
            sendInternalServerError now mode { message := m, stack := "" }
              ("Failed to generate content from " ++ fileType)
          encoded := none
          upstreamCalled := none }
      | Except.ok fileData =>
        match gemini (jsTrim prompt) fileData with
        | UpstreamResult.err m =>
          { response :=
              sendInternalServerError now mode
                { message := "Gemini API Error: " ++ m, stack := "" }
                ("Failed to generate content from " ++ fileType)
            encoded := some fileData
            upstreamCalled := some (jsTrim prompt, fileData) }
        | UpstreamResult.ok text =>
          { response :=
              sendSuccessResponse now (JVal.vstr text)
                ("Content generated successfully from " ++ fileType)
                (formatFileMetadata now file) 200
            encoded := some fileData
            upstreamCalled := some (jsTrim prompt, fileData) }

/-- The registry lookup the file-types endpoint performs: the source invokes
`getFileTypeConfig()` with no argument, i.e. `typeName = undefined`. -/
theorem getFileTypeConfig_none : getFileTypeConfig none = none := rfl

/-- `getSupportedFileTypes(req, res)` from `modules/genAI/controller.js`.
The `try` block evaluates `Object.entries(getFileTypeConfig())`: by
`getFileTypeConfig_none` the argument-less lookup yields `null`, so
`Object.entries(null)` throws `TypeError: Cannot convert undefined or null to
object` before any entry is mapped, and the `catch` block responds with the
500.  The `some` branch is unreachable (the scrutinee is definitionally
`none`); the per-entry mapping the source would apply there is therefore not
modelled. -/
def getSupportedFileTypes (mode : String) (now : Nat) : HttpResponse :=
  match getFileTypeConfig none with
  | some _cfg =>
    sendSuccessResponse now (JVal.varr [])
      "Supported file types retrieved successfully" JVal.vnull 200
  | none =>
    sendInternalServerError now mode
      { message := "Cannot convert undefined or null to object"
        stack := "TypeError" }
      "Failed to retrieve file types information"

/-! Helper lemmas about the embedding. -/

theorem jsTrim_empty : jsTrim "" = "" := rfl

theorem jsTrim_length_le (s : String) : (jsTrim s).length ≤ s.length := by
  show (((s.data.dropWhile jsWhitespace).reverse.dropWhile jsWhitespace).reverse).length ≤ s.data.length
  calc (((s.data.dropWhile jsWhitespace).reverse.dropWhile jsWhitespace).reverse).length
      = ((s.data.dropWhile jsWhitespace).reverse.dropWhile jsWhitespace).length := by
        rw [List.length_reverse]
    _ ≤ (s.data.dropWhile jsWhitespace).reverse.length :=
        (List.dropWhile_suffix _).length_le
    _ = (s.data.dropWhile jsWhitespace).length := by rw [List.length_reverse]
    _ ≤ s.data.length := (List.dropWhile_suffix _).length_le

theorem dropWhile_jsWs_replicate (n : Nat) (c : Char) (h : jsWhitespace c = false) :
    List.dropWhile jsWhitespace (List.replicate n c) = List.replicate n c := by
  cases n with
  | zero => rfl
  | succ m => simp [List.replicate_succ, List.dropWhile_cons, h]

theorem dropWhile_jsWs_replicate_append (n : Nat) (c : Char) (tail : List Char)
    (h : jsWhitespace c = false) (hn : n ≠ 0) :
    List.dropWhile jsWhitespace (List.replicate n c ++ tail) =
      List.replicate n c ++ tail := by
  cases n with
  | zero => exact absurd rfl hn
  | succ m => simp [List.replicate_succ, List.dropWhile_cons, h]

theorem jsTrim_replicate_append_space (n : Nat) (hn : n ≠ 0) :
    jsTrim (String.mk (List.replicate n 'a' ++ [' '])) =
      String.mk (List.replicate n 'a') := by
  show String.mk _ = _
  rw [show (String.mk (List.replicate n 'a' ++ [' '])).data =
      List.replicate n 'a' ++ [' '] from rfl]
  rw [dropWhile_jsWs_replicate_append n 'a' [' '] (by decide) hn]
  rw [List.reverse_append, List.reverse_replicate]
  simp only [List.reverse_cons, List.reverse_nil, List.nil_append, List.singleton_append]
  rw [List.dropWhile_cons]
  simp only [show jsWhitespace ' ' = true from rfl, if_true]
  rw [dropWhile_jsWs_replicate n 'a' (by decide), List.reverse_replicate]

theorem lookupEntry_singleton (k : String) (e : RateEntry) :
    lookupEntry [(k, e)] k = some e := by
  simp [lookupEntry]

theorem setEntry_singleton (k : String) (e e' : RateEntry) :
    setEntry [(k, e)] k e' = [(k, e')] := by
  simp [setEntry]

theorem rateLimiterRun_append (maxR win : Nat) (k : String) (ts us : List Nat)
    (st : RateState) :
    rateLimiterRun maxR win k (ts ++ us) st =
      ((rateLimiterRun maxR win k us (rateLimiterRun maxR win k ts st).1).1,
       (rateLimiterRun maxR win k ts st).2 ++
         (rateLimiterRun maxR win k us (rateLimiterRun maxR win k ts st).1).2) := by
  induction ts generalizing st with
  | nil => simp [rateLimiterRun]
  | cons t ts ih => simp [rateLimiterRun, ih]

theorem rateLimiterRun_within (maxR win : Nat) (k : String) (ts : List Nat)
    (c r : Nat) (hle : c + ts.length ≤ maxR) (hts : ∀ t ∈ ts, t ≤ r) :
    rateLimiterRun maxR win k ts [(k, { count := c, resetTime := r })] =
      ([(k, { count := c + ts.length, resetTime := r })],
       List.replicate ts.length RateOutcome.allowed) := by
  induction ts generalizing c with
  | nil => simp [rateLimiterRun]
  | cons t ts ih =>
    have ht : t ≤ r := hts t (by simp)
    have hc : c < maxR := by
      have := hle
      simp only [List.length_cons] at this
      omega
    have hstep :
        rateLimiterStep maxR win [(k, { count := c, resetTime := r })] k t =
          ([(k, { count := c + 1, resetTime := r })], RateOutcome.allowed) := by
      simp only [rateLimiterStep, lookupEntry_singleton]
      rw [if_neg (by omega), if_neg (by omega), setEntry_singleton]
    simp only [rateLimiterRun, hstep]
    rw [ih (c + 1) (by simp at hle ⊢; omega) (fun t' ht' => hts t' (by simp [ht']))]
    simp only [List.length_cons, List.replicate_succ]
    rw [show c + 1 + ts.length = c + (ts.length + 1) from by omega]

theorem rateLimiterStep_reject (maxR win : Nat) (k : String) (st : RateState)
    (e : RateEntry) (now : Nat) (hfound : lookupEntry st k = some e)
    (hwin : now ≤ e.resetTime) (hcount : maxR ≤ e.count) :
    rateLimiterStep maxR win st k now =
      (st, RateOutcome.limited
        (sendValidationError now "Too many requests. Please try again later."
          (JVal.vnum 429))) := by
  simp only [rateLimiterStep, hfound]
  rw [if_neg (by omega), if_pos hcount]

theorem rateLimiterRun_scenario (maxR win : Nat) (k : String)
    (t0 tN : Nat) (ts : List Nat) (hlen : ts.length + 1 = maxR)
    (hts : ∀ t ∈ ts, t ≤ t0 + win) (htN : tN ≤ t0 + win) :
    rateLimiterRun maxR win k (t0 :: (ts ++ [tN])) [] =
      ([(k, { count := maxR, resetTime := t0 + win })],
       RateOutcome.allowed :: (List.replicate ts.length RateOutcome.allowed ++
         [RateOutcome.limited
           (sendValidationError tN "Too many requests. Please try again later."
             (JVal.vnum 429))])) := by
  have hstep0 :
      rateLimiterStep maxR win [] k t0 =
        ([(k, { count := 1, resetTime := t0 + win })], RateOutcome.allowed) := by
    simp [rateLimiterStep, lookupEntry, setEntry]
  have hmid :
      rateLimiterRun maxR win k ts [(k, { count := 1, resetTime := t0 + win })] =
        ([(k, { count := 1 + ts.length, resetTime := t0 + win })],
         List.replicate ts.length RateOutcome.allowed) :=
    rateLimiterRun_within maxR win k ts 1 (t0 + win) (by omega) hts
  have hlast :
      rateLimiterRun maxR win k [tN]
          [(k, { count := 1 + ts.length, resetTime := t0 + win })] =
        ([(k, { count := 1 + ts.length, resetTime := t0 + win })],
         [RateOutcome.limited
           (sendValidationError tN "Too many requests. Please try again later."
             (JVal.vnum 429))]) := by
    simp only [rateLimiterRun]
    rw [rateLimiterStep_reject maxR win k _ _ tN (lookupEntry_singleton _ _) htN
      (by show maxR ≤ 1 + ts.length; omega)]
  simp only [rateLimiterRun, hstep0]
  rw [rateLimiterRun_append, hmid]
  simp only [hlast]
  rw [show 1 + ts.length = maxR from by omega]

/-! Claim theorems. -/

/-- C10: every response produced through `sendValidationError` has HTTP
status 400 and envelope code 400, regardless of its arguments; the third
argument is placed into the envelope's `errors` field when truthy (and
omitted otherwise), and is never used as a status code. -/
theorem sendValidationError_always_400 (now : Nat) (message : String)
    (validationErrors : JVal) :
    (sendValidationError now message validationErrors).httpStatus = 400 ∧
    (sendValidationError now message validationErrors).body.code = 400 ∧
    (sendValidationError now message validationErrors).body.message = message ∧
    (truthy validationErrors = true →
      (sendValidationError now message validationErrors).body.errors =
        some validationErrors) ∧
    (truthy validationErrors = false →
      (sendValidationError now message validationErrors).body.errors = none) := by
  refine ⟨rfl, rfl, rfl, ?_, ?_⟩ <;>
    intro h <;> simp [sendValidationError, sendErrorResponse, h]

/-- Witness for `sendValidationError_always_400` at the rate limiter's call
site: message and third argument `429`. -/
theorem sendValidationError_always_400_witness :
    truthy (JVal.vnum 429) = true ∧
    (sendValidationError 0 "Too many requests. Please try again later."
      (JVal.vnum 429)).httpStatus = 400 ∧
    (sendValidationError 0 "Too many requests. Please try again later."
      (JVal.vnum 429)).body.errors = some (JVal.vnum 429) :=
  ⟨rfl,
   (sendValidationError_always_400 0 "Too many requests. Please try again later."
     (JVal.vnum 429)).1,
   (sendValidationError_always_400 0 "Too many requests. Please try again later."
     (JVal.vnum 429)).2.2.2.1 rfl⟩

/-- C8 counterexample: called with the non-null meta argument `false`, the
success builder omits the `meta` field, because the source guards with JS
truthiness (`if (meta)`) rather than a null check; the claim's "present iff
non-null" fails at this input. -/
theorem sendSuccessResponse_meta_counterexample :
    (sendSuccessResponse 0 (JVal.vstr "d") "Success" (JVal.vbool false) 200).body.meta
      = none ∧
    JVal.vbool false ≠ JVal.vnull :=
  ⟨rfl, fun h => JVal.noConfusion h⟩

/-- C8 (amended): for every data value, message, meta value and status code,
the success builder yields status `true`, the given code (the source default
is 200), `data` always present, and `meta` present if and only if the meta
argument is truthy — for null-or-object meta arguments, the only ones the
program passes, truthy coincides with non-null. -/
theorem sendSuccessResponse_envelope (now : Nat) (data : JVal) (message : String)
    (meta : JVal) (statusCode : Nat) :
    (sendSuccessResponse now data message meta statusCode).httpStatus = statusCode ∧
    (sendSuccessResponse now data message meta statusCode).body.status = true ∧
    (sendSuccessResponse now data message meta statusCode).body.code = statusCode ∧
    (sendSuccessResponse now data message meta statusCode).body.message = message ∧
    (sendSuccessResponse now data message meta statusCode).body.data = some data ∧
    (sendSuccessResponse now data message meta statusCode).body.errors = none ∧
    (sendSuccessResponse now data message meta statusCode).body.timestamp = now ∧
    (truthy meta = true →
      (sendSuccessResponse now data message meta statusCode).body.meta = some meta) ∧
    (truthy meta = false →
      (sendSuccessResponse now data message meta statusCode).body.meta = none) := by
  refine ⟨rfl, rfl, rfl, rfl, rfl, rfl, rfl, ?_, ?_⟩ <;>
    intro h <;> simp [sendSuccessResponse, h]

/-- Witness for `sendSuccessResponse_envelope`: an object-valued (truthy)
meta argument is included, and the null default is omitted. -/
theorem sendSuccessResponse_envelope_witness :
    truthy (JVal.vobj [("size", JVal.vnum 3)]) = true ∧
    (sendSuccessResponse 5 (JVal.vstr "out") "Success"
      (JVal.vobj [("size", JVal.vnum 3)]) 200).body.meta =
        some (JVal.vobj [("size", JVal.vnum 3)]) ∧
    truthy JVal.vnull = false ∧
    (sendSuccessResponse 5 (JVal.vstr "out") "Success" JVal.vnull 200).body.meta = none :=
  ⟨rfl,
   (sendSuccessResponse_envelope 5 (JVal.vstr "out") "Success"
     (JVal.vobj [("size", JVal.vnum 3)]) 200).2.2.2.2.2.2.2.1 rfl,
   rfl,
   (sendSuccessResponse_envelope 5 (JVal.vstr "out") "Success"
     JVal.vnull 200).2.2.2.2.2.2.2.2 rfl⟩

/-- C6: the internal-error responder always answers 500 with the
caller-supplied public message; the raw `error.message`/`error.stack` appear
in `errors` exactly in development mode, in every other mode `errors` is the
fixed opaque string and the whole response is independent of the error — two
runs with different errors agree exactly, apart from the timestamp, which is
the only field through which the instant enters. -/
theorem sendInternalServerError_leak_boundary (now : Nat) (mode : String)
    (e : JsError) (m : String) :
    (sendInternalServerError now mode e m).httpStatus = 500 ∧
    (sendInternalServerError now mode e m).body.code = 500 ∧
    (sendInternalServerError now mode e m).body.status = false ∧
    (sendInternalServerError now mode e m).body.message = m ∧
    (mode = "development" →
      (sendInternalServerError now mode e m).body.errors =
        some (JVal.vobj
          [("message", JVal.vstr e.message), ("stack", JVal.vstr e.stack)])) ∧
    (mode ≠ "development" →
      (sendInternalServerError now mode e m).body.errors =
        some (JVal.vstr "Internal server error occurred") ∧
      (∀ e' : JsError,
        sendInternalServerError now mode e' m = sendInternalServerError now mode e m) ∧
      (∀ (e' : JsError) (now' : Nat),
        (sendInternalServerError now' mode e' m).body =
          { (sendInternalServerError now mode e m).body with timestamp := now' })) := by
  refine ⟨rfl, rfl, rfl, rfl, ?_, ?_⟩
  · intro h
    simp [sendInternalServerError, sendErrorResponse, h, truthy]
  · intro h
    refine ⟨?_, ?_, ?_⟩
    · simp [sendInternalServerError, sendErrorResponse, h, truthy]
    · intro e'
      simp [sendInternalServerError, sendErrorResponse, h, truthy]
    · intro e' now'
      simp [sendInternalServerError, sendErrorResponse, h, truthy]

/-- Witness for `sendInternalServerError_leak_boundary` in production mode:
two different errors produce the same response, carrying the opaque string. -/
theorem sendInternalServerError_leak_boundary_witness :
    ("production" : String) ≠ "development" ∧
    (sendInternalServerError 9 "production" { message := "boom", stack := "s1" }
      "Failed to generate content").body.errors =
        some (JVal.vstr "Internal server error occurred") ∧
    sendInternalServerError 9 "production" { message := "other", stack := "s2" }
        "Failed to generate content" =
      sendInternalServerError 9 "production" { message := "boom", stack := "s1" }
        "Failed to generate content" := by
  have h : ("production" : String) ≠ "development" := by decide
  exact ⟨h,
    ((sendInternalServerError_leak_boundary 9 "production"
      { message := "boom", stack := "s1" } "Failed to generate content").2.2.2.2.2 h).1,
    ((sendInternalServerError_leak_boundary 9 "production"
      { message := "boom", stack := "s1" } "Failed to generate content").2.2.2.2.2 h).2.1
      { message := "other", stack := "s2" }⟩

/-- C2 (code bug): every request to the file-types endpoint receives the 500
error envelope, never the success list — the endpoint body evaluates
`Object.entries(getFileTypeConfig())`, the argument-less lookup returns null
(`getFileTypeConfig_none`), and `Object.entries(null)` throws before any
registry entry is mapped, so the `catch` answers 500 unconditionally. -/
theorem getSupportedFileTypes_always_500 (mode : String) (now : Nat) :
    (getSupportedFileTypes mode now).httpStatus = 500 ∧
    (getSupportedFileTypes mode now).body.status = false ∧
    (getSupportedFileTypes mode now).body.code = 500 ∧
    (getSupportedFileTypes mode now).body.message =
      "Failed to retrieve file types information" ∧
    (getSupportedFileTypes mode now).body.data = none :=
  ⟨rfl, rfl, rfl, rfl, rfl⟩

theorem lookupKey_sanitize (k : String) (body : List (String × JVal)) :
    lookupKey k (sanitizeRequestBody body) =
      if k ∈ dangerousKeys then none
      else (lookupKey k body).map trimIfString := by
  induction body with
  | nil =>
    by_cases hk : k ∈ dangerousKeys <;> simp [sanitizeRequestBody, lookupKey, hk]
  | cons kv rest ih =>
    obtain ⟨k', v⟩ := kv
    by_cases hk' : k' ∈ dangerousKeys
    · have hsan : sanitizeRequestBody ((k', v) :: rest) = sanitizeRequestBody rest := by
        simp [sanitizeRequestBody, List.filter_cons, hk']
      rw [hsan, ih]
      by_cases hk : k ∈ dangerousKeys
      · simp [hk]
      · have hne : k ≠ k' := by
          intro h
          rw [h] at hk
          exact hk hk'
        simp [hk, lookupKey, hne]
    · have hsan : sanitizeRequestBody ((k', v) :: rest) =
          (k', trimIfString v) :: sanitizeRequestBody rest := by
        simp [sanitizeRequestBody, List.filter_cons, hk']
      rw [hsan]
      by_cases hkk : k = k'
      · subst hkk
        simp [lookupKey, hk']
      · simp only [lookupKey, if_neg hkk]
        rw [ih]

/-- C9: for every request body, the sanitizer removes the three dangerous
top-level keys, trims every string-valued field that remains, and leaves
everything else untouched: a non-dangerous key's value is exactly the
original value passed through `trimIfString` (identity on non-strings), so
no key outside the dangerous three is removed or otherwise altered. -/
theorem sanitizeRequestBody_frame (body : List (String × JVal)) :
    (∀ k, k ∈ dangerousKeys → lookupKey k (sanitizeRequestBody body) = none) ∧
    (∀ k, k ∉ dangerousKeys →
      lookupKey k (sanitizeRequestBody body) = (lookupKey k body).map trimIfString) := by
  constructor
  · intro k hk
    rw [lookupKey_sanitize, if_pos hk]
  · intro k hk
    rw [lookupKey_sanitize, if_neg hk]

/-- Witness for `sanitizeRequestBody_frame`: on a body holding `__proto__`,
an untrimmed string prompt and a number, the dangerous key disappears, the
string is trimmed and the number survives unchanged. -/
theorem sanitizeRequestBody_frame_witness :
    ("__proto__" : String) ∈ dangerousKeys ∧
    ("prompt" : String) ∉ dangerousKeys ∧
    ("n" : String) ∉ dangerousKeys ∧
    lookupKey "__proto__" (sanitizeRequestBody
      [("__proto__", JVal.vstr "x"), ("prompt", JVal.vstr "  hi  "), ("n", JVal.vnum 3)])
      = none ∧
    lookupKey "prompt" (sanitizeRequestBody
      [("__proto__", JVal.vstr "x"), ("prompt", JVal.vstr "  hi  "), ("n", JVal.vnum 3)])
      = some (JVal.vstr "hi") ∧
    lookupKey "n" (sanitizeRequestBody
      [("__proto__", JVal.vstr "x"), ("prompt", JVal.vstr "  hi  "), ("n", JVal.vnum 3)])
      = some (JVal.vnum 3) := by
  refine ⟨by decide, by decide, by decide, ?_, ?_, ?_⟩
  · exact (sanitizeRequestBody_frame
      [("__proto__", JVal.vstr "x"), ("prompt", JVal.vstr "  hi  "), ("n", JVal.vnum 3)]).1
      "__proto__" (by decide)
  · exact ((sanitizeRequestBody_frame
      [("__proto__", JVal.vstr "x"), ("prompt", JVal.vstr "  hi  "), ("n", JVal.vnum 3)]).2
      "prompt" (by decide)).trans rfl
  · exact ((sanitizeRequestBody_frame
      [("__proto__", JVal.vstr "x"), ("prompt", JVal.vstr "  hi  "), ("n", JVal.vnum 3)]).2
      "n" (by decide)).trans rfl

theorem validateFile_isValid_iff (ct : String) (cfg : FileTypeConfig)
    (hcfg : getFileTypeConfig (some ct) = some cfg)
    (hne : "" ∉ cfg.allowedMimeTypes) (f : Option UploadedFile) :
    (validateFile f ct).isValid = true ↔
      ∃ file, f = some file ∧
        (∃ m, file.mimetype = some m ∧ m ∈ cfg.allowedMimeTypes) ∧
        (∃ n, file.size = some n ∧ n ≤ (cfg.maxSize : Int)) := by
  cases f with
  | none =>
    simp [validateFile, hcfg]
  | some file =>
    cases hmt : file.mimetype with
    | none =>
      simp [validateFile, isValidFileType, hcfg, hmt]
    | some mt =>
      by_cases hmt0 : mt = ""
      · subst hmt0
        simp [validateFile, isValidFileType, hcfg, hmt, hne]
      · by_cases hmem : mt ∈ cfg.allowedMimeTypes
        · cases hsz : file.size with
          | none =>
            simp [validateFile, isValidFileType, isValidFileSize, hcfg, hmt, hmt0, hmem, hsz]
          | some n =>
            by_cases hn : n ≤ (cfg.maxSize : Int) <;>
              simp [validateFile, isValidFileType, isValidFileSize, hcfg, hmt, hmt0,
                hmem, hsz, hn]
        · simp [validateFile, isValidFileType, hcfg, hmt, hmt0, hmem]

theorem validateFile_size_message (ct : String) (cfg : FileTypeConfig)
    (hcfg : getFileTypeConfig (some ct) = some cfg)
    (file : UploadedFile) (m : String) (hmt : file.mimetype = some m)
    (hm0 : m ≠ "") (hmem : m ∈ cfg.allowedMimeTypes) (n : Int)
    (hsz : file.size = some n) (hover : ¬ n ≤ (cfg.maxSize : Int)) :
    (validateFile (some file) ct).isValid = false ∧
    (validateFile (some file) ct).error =
      some ("File size exceeds " ++
        toString (mathRoundDiv cfg.maxSize (1024 * 1024)) ++ "MB limit") := by
  constructor <;>
    simp [validateFile, isValidFileType, isValidFileSize, hcfg, hmt, hm0, hmem, hsz, hover]

/-- C5: for each of the four registry categories, `validateFile` accepts a
file exactly when it is present, its declared MIME type is in the category's
allow-list, and its size is a number not exceeding the category's byte
ceiling (inclusive); moreover, with a valid MIME type, a file of exactly
`maxSize` bytes is valid, and one of `maxSize + 1` bytes is invalid with the
error message naming the rounded MB ceiling. -/
theorem validateFile_spec (ct : String) (cfg : FileTypeConfig)
    (hct : ct ∈ ["image", "document", "audio", "video"])
    (hcfg : getFileTypeConfig (some ct) = some cfg) (f : Option UploadedFile) :
    ((validateFile f ct).isValid = true ↔
      ∃ file, f = some file ∧
        (∃ m, file.mimetype = some m ∧ m ∈ cfg.allowedMimeTypes) ∧
        (∃ n, file.size = some n ∧ n ≤ (cfg.maxSize : Int))) ∧
    (∀ file m, f = some file → file.mimetype = some m → m ∈ cfg.allowedMimeTypes →
      (file.size = some (cfg.maxSize : Int) → (validateFile f ct).isValid = true) ∧
      (file.size = some ((cfg.maxSize : Int) + 1) →
        (validateFile f ct).isValid = false ∧
        (validateFile f ct).error =
          some ("File size exceeds " ++
            toString (mathRoundDiv cfg.maxSize (1024 * 1024)) ++ "MB limit"))) := by
  have hne : "" ∉ cfg.allowedMimeTypes := by
    simp only [List.mem_cons, List.mem_singleton, List.not_mem_nil, or_false] at hct
    rcases hct with h | h | h | h
    · subst h
      have h2 : some IMAGE_CONFIG = some cfg := hcfg
      obtain rfl : IMAGE_CONFIG = cfg := Option.some.inj h2
      decide
    · subst h
      have h2 : some DOCUMENT_CONFIG = some cfg := hcfg
      obtain rfl : DOCUMENT_CONFIG = cfg := Option.some.inj h2
      decide
    · subst h
      have h2 : some AUDIO_CONFIG = some cfg := hcfg
      obtain rfl : AUDIO_CONFIG = cfg := Option.some.inj h2
      decide
    · subst h
      have h2 : some VIDEO_CONFIG = some cfg := hcfg
      obtain rfl : VIDEO_CONFIG = cfg := Option.some.inj h2
      decide
  refine ⟨validateFile_isValid_iff ct cfg hcfg hne f, ?_⟩
  intro file m hf hmt hmem
  have hm0 : m ≠ "" := fun h => hne (h ▸ hmem)
  subst hf
  constructor
  · intro hsz
    rw [validateFile_isValid_iff ct cfg hcfg hne]
    exact ⟨file, rfl, ⟨m, hmt, hmem⟩, ⟨(cfg.maxSize : Int), hsz, le_refl _⟩⟩
  · intro hsz
    exact validateFile_size_message ct cfg hcfg file m hmt hm0 hmem _ hsz (by omega)

/-- Witness for `validateFile_spec` at the image category: a JPEG of exactly
10485760 bytes is accepted, one of 10485761 bytes is rejected with the
10MB-ceiling message. -/
theorem validateFile_spec_witness :
    ("image" : String) ∈ ["image", "document", "audio", "video"] ∧
    getFileTypeConfig (some "image") = some IMAGE_CONFIG ∧
    (validateFile (some (UploadedFile.mk (some "a.jpg") (some "image/jpeg") (some 10485760) (some [1]))) "image").isValid = true ∧
    (validateFile (some (UploadedFile.mk (some "a.jpg") (some "image/jpeg") (some 10485761) (some [1]))) "image").isValid = false ∧
    (validateFile (some (UploadedFile.mk (some "a.jpg") (some "image/jpeg") (some 10485761) (some [1]))) "image").error =
        some "File size exceeds 10MB limit" := by
  refine ⟨by decide, rfl, ?_, ?_, ?_⟩
  · exact ((validateFile_spec "image" IMAGE_CONFIG (by decide) rfl
      (some (UploadedFile.mk (some "a.jpg") (some "image/jpeg") (some 10485760) (some [1])))).2
      (UploadedFile.mk (some "a.jpg") (some "image/jpeg") (some 10485760) (some [1]))
      "image/jpeg" rfl rfl (by decide)).1 rfl
  · exact (((validateFile_spec "image" IMAGE_CONFIG (by decide) rfl
      (some (UploadedFile.mk (some "a.jpg") (some "image/jpeg") (some 10485761) (some [1])))).2
      (UploadedFile.mk (some "a.jpg") (some "image/jpeg") (some 10485761) (some [1]))
      "image/jpeg" rfl rfl (by decide)).2 rfl).1
  · exact ((((validateFile_spec "image" IMAGE_CONFIG (by decide) rfl
      (some (UploadedFile.mk (some "a.jpg") (some "image/jpeg") (some 10485761) (some [1])))).2
      (UploadedFile.mk (some "a.jpg") (some "image/jpeg") (some 10485761) (some [1]))
      "image/jpeg" rfl rfl (by decide)).2 rfl).2).trans rfl

theorem string_mk_ne_empty (l : List Char) (h : l ≠ []) : String.mk l ≠ "" := by
  intro he
  exact h (congrArg String.data he)

theorem truthy_vstr_of_ne (s : String) (h : s ≠ "") : truthy (JVal.vstr s) = true := by
  simp [truthy, h]

/-- C3 counterexample: the prompt consisting of 10,000 letters followed by a
single space has trimmed length 10,000 — inside the claim's acceptance
window — yet the validator rejects it, because the source compares the
untrimmed length (here 10,001) against 10,000. -/
theorem validatePrompt_counterexample :
    (jsTrim (String.mk (List.replicate 10000 'a' ++ [' ']))).length = 10000 ∧
    (validatePrompt 0 (some (JVal.vstr
      (String.mk (List.replicate 10000 'a' ++ [' ']))))).isAccepted = false := by
  have htrim := jsTrim_replicate_append_space 10000 (by decide)
  have hlen : (jsTrim (String.mk (List.replicate 10000 'a' ++ [' ']))).length = 10000 := by
    rw [htrim]
    show (List.replicate 10000 'a').length = 10000
    rw [List.length_replicate]
  refine ⟨hlen, ?_⟩
  have hne : String.mk (List.replicate 10000 'a' ++ [' ']) ≠ "" :=
    string_mk_ne_empty _ (by
      intro h
      exact List.cons_ne_nil ' ' [] (List.append_eq_nil.mp h).2)
  have hslen : (String.mk (List.replicate 10000 'a' ++ [' '])).length = 10001 := by
    show (List.replicate 10000 'a' ++ [' ']).length = 10001
    rw [List.length_append, List.length_replicate, List.length_singleton]
  simp only [validatePrompt, truthy_vstr_of_ne _ hne]
  rw [if_neg (by simp), if_neg (by omega), if_pos (by omega)]
  rfl

/-- C3 (amended): the prompt validator accepts exactly the present string
prompts whose trimmed length is at least 1 and whose untrimmed length is at
most 10,000 (so a 10,000-character prompt with no surrounding whitespace is
valid), and on acceptance the trimmed value replaces the original prompt. -/
theorem validatePrompt_amended (now : Nat) (p : Option JVal) :
    (∀ s, p = some (JVal.vstr s) → 1 ≤ (jsTrim s).length → s.length ≤ 10000 →
      validatePrompt now p = PromptOutcome.accepted (jsTrim s)) ∧
    (∀ t, validatePrompt now p = PromptOutcome.accepted t →
      ∃ s, p = some (JVal.vstr s) ∧ 1 ≤ (jsTrim s).length ∧ s.length ≤ 10000 ∧
        t = jsTrim s) := by
  constructor
  · intro s hp htrim hlen
    subst hp
    have hne : s ≠ "" := by
      intro he
      subst he
      rw [jsTrim_empty] at htrim
      exact absurd htrim (by decide)
    simp only [validatePrompt, truthy_vstr_of_ne s hne]
    rw [if_neg (by simp), if_neg (by omega), if_neg (by omega)]
  · intro t hacc
    cases p with
    | none => exact absurd hacc (by simp [validatePrompt])
    | some v =>
      cases v with
      | vstr s =>
        simp only [validatePrompt] at hacc
        by_cases htr : truthy (JVal.vstr s) = false
        · rw [if_pos htr] at hacc
          simp at hacc
        · rw [if_neg htr] at hacc
          by_cases h0 : (jsTrim s).length = 0
          · rw [if_pos h0] at hacc
            simp at hacc
          · rw [if_neg h0] at hacc
            by_cases hlong : s.length > 10000
            · rw [if_pos hlong] at hacc
              simp at hacc
            · rw [if_neg hlong] at hacc
              injection hacc with h
              subst h
              exact ⟨s, rfl, by omega, by omega, rfl⟩
      | vnull =>
        simp only [validatePrompt] at hacc
        split at hacc <;> simp at hacc
      | vbool b =>
        simp only [validatePrompt] at hacc
        split at hacc <;> simp at hacc
      | vnum n =>
        simp only [validatePrompt] at hacc
        split at hacc <;> simp at hacc
      | varr xs =>
        simp only [validatePrompt] at hacc
        split at hacc <;> simp at hacc
      | vobj fs =>
        simp only [validatePrompt] at hacc
        split at hacc <;> simp at hacc

/-- Witness for `validatePrompt_amended`: the prompt `" ok "` is accepted
and replaced by its trimmed form `"ok"`. -/
theorem validatePrompt_amended_witness :
    1 ≤ (jsTrim " ok ").length ∧ (" ok " : String).length ≤ 10000 ∧
    validatePrompt 7 (some (JVal.vstr " ok ")) = PromptOutcome.accepted "ok" :=
  ⟨by decide, by decide,
   (validatePrompt_amended 7 (some (JVal.vstr " ok "))).1 " ok " rfl
     (by decide) (by decide)⟩

/-- C4 counterexample: with max=1 and window=1000 ms, after a first call at
time 0 the stored entry is count 1, resetTime 1000; a second call at time
1000 — exactly first-call-time + window, so the claim's "a call at time ≥
first-call-time + W is allowed and resets the count" applies to it — is
rejected, because the source resets only when now is strictly greater than
resetTime. -/
theorem rateLimiter_boundary_counterexample :
    (rateLimiterStep 1 1000 [] "c" 0).1 =
      [("c", { count := 1, resetTime := 1000 })] ∧
    (1000 : Nat) ≥ 0 + 1000 ∧
    ((rateLimiterStep 1 1000 [("c", { count := 1, resetTime := 1000 })] "c"
      1000).2).isAllowed = false :=
  ⟨rfl, by omega, rfl⟩

/-- C4 (amended): for max=N ≥ 1 and window=W and a single client key,
starting fresh, N+1 calls whose later times lie within W ms of the first
give N allowed calls and a rejected (N+1)-th; an entry is re-initialized to
count 1 exactly when now is strictly greater than resetTime (so a call
strictly after first-call-time + W is allowed and stores count 1); otherwise
within a window the count only increments, is compared against N, and a
rejected call leaves the stored state unchanged. -/
theorem rateLimiter_amended (maxR win : Nat) (k : String) :
    (∀ t0 tN (ts : List Nat), ts.length + 1 = maxR →
      (∀ t ∈ ts, t ≤ t0 + win) → tN ≤ t0 + win →
      (rateLimiterRun maxR win k (t0 :: (ts ++ [tN])) []).2.map RateOutcome.isAllowed =
        List.replicate maxR true ++ [false]) ∧
    (∀ st e now, lookupEntry st k = some e → e.resetTime < now →
      rateLimiterStep maxR win st k now =
        (setEntry st k { count := 1, resetTime := now + win }, RateOutcome.allowed)) ∧
    (∀ st e now, lookupEntry st k = some e → now ≤ e.resetTime → e.count < maxR →
      rateLimiterStep maxR win st k now =
        (setEntry st k { count := e.count + 1, resetTime := e.resetTime },
         RateOutcome.allowed)) ∧
    (∀ st e now, lookupEntry st k = some e → now ≤ e.resetTime → maxR ≤ e.count →
      (rateLimiterStep maxR win st k now).1 = st ∧
      ((rateLimiterStep maxR win st k now).2).isAllowed = false) := by
  refine ⟨?_, ?_, ?_, ?_⟩
  · intro t0 tN ts hlen hts htN
    rw [rateLimiterRun_scenario maxR win k t0 tN ts hlen hts htN]
    simp only [List.map_cons, List.map_append, List.map_replicate,
      RateOutcome.isAllowed]
    rw [← hlen, List.replicate_succ]
    simp
  · intro st e now hfound hexp
    simp only [rateLimiterStep, hfound]
    rw [if_pos hexp]
  · intro st e now hfound hwin hcount
    simp only [rateLimiterStep, hfound]
    rw [if_neg (by omega), if_neg (by omega)]
  · intro st e now hfound hwin hcount
    rw [rateLimiterStep_reject maxR win k st e now hfound hwin hcount]
    exact ⟨rfl, rfl⟩

/-- Witness for `rateLimiter_amended`: max=2, window=10, three calls at
times 0, 0, 1 — the first two allowed, the third rejected. -/
theorem rateLimiter_amended_witness :
    ([(0 : Nat)].length + 1 = 2) ∧ (∀ t ∈ [(0 : Nat)], t ≤ 0 + 10) ∧ ((1 : Nat) ≤ 0 + 10) ∧
    (rateLimiterRun 2 10 "c" [0, 0, 1] []).2.map RateOutcome.isAllowed =
      [true, true, false] :=
  ⟨rfl, by decide, by decide,
   (rateLimiter_amended 2 10 "c").1 0 1 [0] rfl (by decide) (by decide)⟩

/-- C1 (code bug): with the limiter configured as in the router (100
requests per 15 minutes = 900000 ms), 101 requests from one client IP at
the same instant give 100 allowed calls and a rejected 101st whose response
carries the claimed message "Too many requests. Please try again later." —
but over HTTP status 400 with envelope code 400 and the number 429 stored in
the errors field, because the source passes 429 as the third argument of
sendValidationError, which is its errors payload, not a status code. -/
theorem rateLimiter_101st_gets_400 :
    (rateLimiterRun 100 900000 "203.0.113.7" (List.replicate 101 0) []).2.map
        RateOutcome.isAllowed = List.replicate 100 true ++ [false] ∧
    (rateLimiterRun 100 900000 "203.0.113.7" (List.replicate 101 0) []).2.getLast? =
      some (RateOutcome.limited
        (sendValidationError 0 "Too many requests. Please try again later."
          (JVal.vnum 429))) ∧
    (sendValidationError 0 "Too many requests. Please try again later."
      (JVal.vnum 429)).httpStatus = 400 ∧
    (sendValidationError 0 "Too many requests. Please try again later."
      (JVal.vnum 429)).body.code = 400 ∧
    (sendValidationError 0 "Too many requests. Please try again later."
      (JVal.vnum 429)).body.message = "Too many requests. Please try again later." ∧
    (sendValidationError 0 "Too many requests. Please try again later."
      (JVal.vnum 429)).body.errors = some (JVal.vnum 429) := by
  have hrep : List.replicate 101 (0 : Nat) = 0 :: (List.replicate 99 0 ++ [0]) := by
    rw [List.replicate_succ]
    congr 1
  have hrun := rateLimiterRun_scenario 100 900000 "203.0.113.7" 0 0 (List.replicate 99 0)
    (by rw [List.length_replicate]) (fun t ht => by
      rw [List.eq_of_mem_replicate ht]
      omega)
    (by omega)
  refine ⟨?_, ?_, rfl, rfl, rfl, ?_⟩
  · rw [hrep, hrun]
    simp only [List.map_cons, List.map_append, List.map_replicate,
      List.length_replicate, RateOutcome.isAllowed]
    rw [show (100 : Nat) = 99 + 1 from rfl, List.replicate_succ]
    simp
  · rw [hrep, hrun]
    rw [List.length_replicate, ← List.cons_append, List.getLast?_concat]
  · simp [sendValidationError, sendErrorResponse, truthy]

/-- C7 counterexample: a request with no prompt and no file fails category
validation, yet the handler answers 500 with the generic message, not the
claimed 400 envelope carrying the file validator's message — the prompt
guard throws first, so the claim needs the prompt to be valid. -/
theorem handleFileRequest_counterexample :
    (validateFile none "image").isValid = false ∧
    (handleFileRequest "test" 0 (fun _ _ => UpstreamResult.ok "out") none none
      "image").response.httpStatus = 500 ∧
    (handleFileRequest "test" 0 (fun _ _ => UpstreamResult.ok "out") none none
      "image").response.body.message = "Failed to generate content from image" :=
  ⟨rfl, rfl, rfl⟩

/-- C7 (amended): in the file-upload flow, for every request that passes the
handler's prompt guard and whose file fails category validation, the handler
returns the 400 validation-error envelope carrying the validator's error
message, and neither the encoding nor the upstream call happens; and —
with no hypothesis on the prompt — encoding and the upstream invocation only
ever happen after file validation has succeeded. -/
theorem handleFileRequest_validation_gate (mode : String) (now : Nat)
    (gemini : String → FileData → UpstreamResult) (p : Option JVal)
    (file : Option UploadedFile) (fileType : String) :
    (∀ s err, handlerPromptGuard p = some s →
      (validateFile file fileType).isValid = false →
      (validateFile file fileType).error = some err →
      (handleFileRequest mode now gemini p file fileType).response =
        sendValidationError now err JVal.vnull ∧
      (handleFileRequest mode now gemini p file fileType).response.httpStatus = 400 ∧
      (handleFileRequest mode now gemini p file fileType).response.body.message = err ∧
      (handleFileRequest mode now gemini p file fileType).upstreamCalled = none ∧
      (handleFileRequest mode now gemini p file fileType).encoded = none) ∧
    (((handleFileRequest mode now gemini p file fileType).upstreamCalled ≠ none ∨
      (handleFileRequest mode now gemini p file fileType).encoded ≠ none) →
      (validateFile file fileType).isValid = true) := by
  constructor
  · intro s err hg hinv herr
    simp only [handleFileRequest, hg]
    rw [if_pos hinv, herr]
    exact ⟨rfl, rfl, rfl, rfl, rfl⟩
  · intro h
    cases hg : handlerPromptGuard p with
    | none =>
      exfalso
      simp only [handleFileRequest, hg] at h
      rcases h with h | h <;> exact h rfl
    | some s =>
      cases hb : (validateFile file fileType).isValid with
      | true => rfl
      | false =>
        exfalso
        simp only [handleFileRequest, hg] at h
        rw [if_pos hb] at h
        rcases h with h | h <;> exact h rfl

/-- Witness for `handleFileRequest_validation_gate`: prompt "hi" with a
missing image file yields the 400 envelope with the validator's message and
no upstream activity. -/
theorem handleFileRequest_validation_gate_witness :
    handlerPromptGuard (some (JVal.vstr "hi")) = some "hi" ∧
    (validateFile none "image").isValid = false ∧
    (validateFile none "image").error = some "image file is required" ∧
    (handleFileRequest "test" 3 (fun _ _ => UpstreamResult.ok "out")
      (some (JVal.vstr "hi")) none "image").response.httpStatus = 400 ∧
    (handleFileRequest "test" 3 (fun _ _ => UpstreamResult.ok "out")
      (some (JVal.vstr "hi")) none "image").response.body.message =
        "image file is required" ∧
    (handleFileRequest "test" 3 (fun _ _ => UpstreamResult.ok "out")
      (some (JVal.vstr "hi")) none "image").upstreamCalled = none := by
  have h := (handleFileRequest_validation_gate "test" 3
    (fun _ _ => UpstreamResult.ok "out") (some (JVal.vstr "hi")) none "image").1
    "hi" "image file is required" rfl rfl rfl
  exact ⟨rfl, rfl, rfl, h.2.1, h.2.2.1, h.2.2.2.1⟩
